import Mathlib

/-!
Verification development for the Rainbow HAT device-driver repository.

The user-space library (`rainbow_hat.c`) and application (`user_space_app.c`)
are embedded shallowly: C character buffers become `List Char`, C `int`
results become `Int`, and the outcome of the raw `write(2)` / `read(2)`
system calls is passed in as an explicit oracle argument (the library never
inspects anything about those calls except their return value).  The kernel
module is present in the repository only through its documentation excerpts;
the fragments that appear verbatim in the documentation are embedded from
those fragments.
-/

namespace RainbowHat

/-- Constant `MAX_AMOUNT_PINS` from `rainbow_hat.h` (7 LEDs on the arc). -/
def MAX_AMOUNT_PINS : Nat := 7

/-- Constant `LED_ARRAY_SIZE` from `rainbow_hat.c` (size of the static text buffer). -/
def LED_ARRAY_SIZE : Nat := 70

/-- Constant `ERR_BUF_SIZE` from `rainbow_hat.h` (capacity of a caller error buffer). -/
def ERR_BUF_SIZE : Nat := 256

/-- Constant `COL_BLACK = "000000"` from `rainbow_hat.c`. -/
def COL_BLACK : List Char := ['0', '0', '0', '0', '0', '0']

/-- Constant `PIN_NUMBERS = {0, 1, 2, 3, 4, 5, 6}` from `rainbow_hat.c`. -/
def PIN_NUMBERS : List Int := [0, 1, 2, 3, 4, 5, 6]

/-- Constant `BUTTON_NAMES = {'A', 'B', 'C'}` from `rainbow_hat.c`. -/
def BUTTON_NAMES : List Char := ['A', 'B', 'C']

/-- The NUL character, the "no button pressed" sentinel of `get_active_button`. -/
def nulChar : Char := Char.ofNat 0

/-- Decimal rendering of a C `int` by `snprintf`'s `%d` conversion. -/
def pinChars (pin : Int) : List Char := (toString pin).toList

/-- Embedding of `static int write_error(char err_buff[], char *err_str)` from
`rainbow_hat.c`: `snprintf(err_buff, ERR_BUF_SIZE, "%s\n", err_str)` stores the
message with a newline appended, truncated to `ERR_BUF_SIZE - 1` characters.
The returned buffer is the new content of `err_buff`. -/
def write_error (err_str : List Char) : List Char :=
  (err_str ++ ['\n']).take (ERR_BUF_SIZE - 1)

/-- One iteration of the `snprintf(tmp, sizeof(tmp), "%s%d:%s", ...)` call in
`create_led_array`: the text `[","]pin":"color`, truncated to 19 characters
because `tmp` is a `char[20]`. -/
def led_entry (idx : Nat) (pin : Int) (color : List Char) : List Char :=
  ((if 0 < idx then [','] else []) ++ pinChars pin ++ [':'] ++ color).take 19

/-- The color chosen for loop index `idx` by `create_led_array`:
`(amount_colors == 1 || amount_colors == amount_leds) ? hex_color[min(idx, amount_colors-1)] : hex_color[0]`
(with `amount_colors = colors.length`). -/
def pick_color (colors : List (List Char)) (amount_leds idx : Nat) : List Char :=
  if colors.length = 1 ∨ colors.length = amount_leds then
    colors.getD (min idx (colors.length - 1)) []
  else colors.getD 0 []

/-- The `for (int idx = 0; idx < amount_leds; ++idx)` loop of
`create_led_array` in `rainbow_hat.c`.  `colors` and `amount_leds` are the
loop-invariant `hex_color` array and `amount_leds` argument; the remaining
pins, the current index and the accumulated `LED_ARRAY` content are threaded
through.  `if (strlen(LED_ARRAY) + strlen(tmp) >= LED_ARRAY_SIZE) return -2;`
guards the `strcat`. -/
def craGo (colors : List (List Char)) (amount_leds : Nat) :
    List Int → Nat → List Char → Except Int (List Char)
  | [], _, acc => .ok acc
  | pin :: rest, idx, acc =>
      let tmp := led_entry idx pin (pick_color colors amount_leds idx)
      if LED_ARRAY_SIZE ≤ acc.length + tmp.length then .error (-2)
      else craGo colors amount_leds rest (idx + 1) (acc ++ tmp)

/-- Embedding of `static int create_led_array(const int pins[], int amount_leds,
const char *hex_color[], int amount_colors)` from `rainbow_hat.c`.  The two C
arrays with their element counts become two Lean lists (`amount_leds =
pins.length`, `amount_colors = colors.length`).  The argument check is
`amount_leds > MAX_AMOUNT_PINS || amount_colors > MAX_AMOUNT_PINS ||
amount_leds <= 0 || amount_colors <= 0` returning `-1`; on success the
function returns the text written into the (freshly `memset`) module buffer
`LED_ARRAY`. -/
def create_led_array (pins : List Int) (colors : List (List Char)) :
    Except Int (List Char) :=
  if MAX_AMOUNT_PINS < pins.length ∨ MAX_AMOUNT_PINS < colors.length ∨
      pins.length = 0 ∨ colors.length = 0 then
    .error (-1)
  else craGo colors pins.length pins 0 []

/-- Struct `rainbow_hat_dev` from `rainbow_hat.h` (the three file
descriptors; the function-pointer fields are the functions below). -/
structure rainbow_hat_dev where
  leds_fd : Int
  buttons_fd : Int
  buzzer_fd : Int

/-- Struct `led_arg` from `rainbow_hat.h`; the element counts are the list
lengths. -/
structure led_arg where
  colors : List (List Char)
  pins : List Int

/-- The `switch (bytes_written)` diagnostic table of `set_leds` in
`rainbow_hat.c` (Linux errno values: ENOMEM 12, ERESTART 85, EFAULT 14,
EINVAL 22, EIO 5). -/
def led_err_msg (code : Int) : List Char :=
  if code = -12 then "LED-Device: Insufficient memory!".toList
  else if code = -85 then "LED-Device: Device busy!".toList
  else if code = -14 then "LED-Device: Segmentation fault!".toList
  else if code = -22 then "LED-Device: Invalid argument!".toList
  else if code = -5 then "LED-Device: Device error!".toList
  else "LED-Device: Unexpected error occurred!".toList

/-- Embedding of `static int set_leds(int led_fd, char err_buff[])` from
`rainbow_hat.c`.  `writeRet` is the value returned by
`write(led_fd, LED_ARRAY, strlen(LED_ARRAY))`; `bytes_written` starts at `-1`
and is only assigned when `led_fd >= 0`.  Result: the C return value
(`bytes_written < 0 ? -1 : 0`) paired with the error-buffer content. -/
def set_leds (led_fd : Int) (writeRet : Int) (err_buff : List Char) :
    Int × List Char :=
  if 0 ≤ led_fd then
    if writeRet < 0 then (-1, write_error (led_err_msg writeRet))
    else (0, err_buff)
  else (-1, err_buff)

/-- Embedding of `int led_light_on(rainbow_hat_dev *dev, led_arg ledArg,
char err_buff[])` from `rainbow_hat.c`.  A `none` device is the C null
pointer.  A non-zero `create_led_array` result is reported as
"LED-LIGHT-ON: Invalid argument!"; otherwise `set_leds` runs on the LED file
descriptor. -/
def led_light_on (dev : Option rainbow_hat_dev) (ledArg : led_arg)
    (writeRet : Int) (err_buff : List Char) : Int × List Char :=
  match dev with
  | none => (-1, write_error "LED-LIGHT-ON: Device-Error (Null-Pointer)!".toList)
  | some d =>
      match create_led_array ledArg.pins ledArg.colors with
      | .error _ => (-1, write_error "LED-LIGHT-ON: Invalid argument!".toList)
      | .ok _ => set_leds d.leds_fd writeRet err_buff

/-- The encoded LED command text a `led_light_on` call hands to the device
(the content of the module buffer `LED_ARRAY` after `create_led_array`). -/
def led_light_on_encoded (ledArg : led_arg) : Except Int (List Char) :=
  create_led_array ledArg.pins ledArg.colors

/-- Embedding of `int led_light_off(rainbow_hat_dev *dev, char err_buff[])`
from `rainbow_hat.c`: builds `led_arg` with all of `PIN_NUMBERS` and the
single color `COL_BLACK`, then calls `led_light_on`. -/
def led_light_off (dev : Option rainbow_hat_dev) (writeRet : Int)
    (err_buff : List Char) : Int × List Char :=
  match dev with
  | none => (-1, write_error "LED-LIGHT-OFF: Device Error (Null-Pointer)!".toList)
  | some d => led_light_on (some d) ⟨[COL_BLACK], PIN_NUMBERS⟩ writeRet err_buff

/-- The `switch (bytes_written)` diagnostic table of `play_tone` in
`rainbow_hat.c` (EINVAL 22, EBUSY 16, EFAULT 14, ERANGE 34). -/
def buzzer_err_msg (code : Int) : List Char :=
  if code = -22 then "Buzzer-Device: Invalid arguments!".toList
  else if code = -16 then "Buzzer-Device: Device busy!".toList
  else if code = -14 then "Buzzer-Device: Segmentation fault!".toList
  else if code = -34 then "Buzzer-Device: Invalid argument - validate frequency!".toList
  else "Buzzer-Device: Unexpected error occurred!".toList

/-- Embedding of `int play_tone(rainbow_hat_dev *dev, unsigned long frequency,
char err_buff[])` from `rainbow_hat.c`, including the faithful translation of
`bytes_written = write(dev->buzzer_fd, &frequency, sizeof(frequency)) < 0;`
(the comparison with `<` binds tighter than the assignment, so
`bytes_written` receives the boolean 0 or 1, never the negative error code).
`writeRet` is the value returned by the `write` call itself. -/
def play_tone (dev : Option rainbow_hat_dev) (frequency : Nat) (writeRet : Int)
    (err_buff : List Char) : Int × List Char :=
  match dev with
  | none => (-1, write_error "Buzzer-Device: Device Error (Null-Pointer)!".toList)
  | some d =>
      if 0 ≤ d.buzzer_fd then
        let bytes_written : Int := if writeRet < 0 then 1 else 0
        let buff2 :=
          if bytes_written < 0 then write_error (buzzer_err_msg bytes_written)
          else err_buff
        (if bytes_written < 0 then -1 else 0, buff2)
      else (-1, err_buff)

/-- The `switch (result)` diagnostic table of `get_active_button` in
`rainbow_hat.c` (EINVAL 22, EFAULT 14). -/
def btn_err_msg (code : Int) : List Char :=
  if code = -22 then "Button-Device: Invalid argument!".toList
  else if code = -14 then "Button-Device: Segmentation Fault!".toList
  else "Button-Device: Unexpected Error occurred!".toList

/-- The `for (int i = 0; i < 3; i++)` scan of `get_active_button`: walk the
button-state characters and `BUTTON_NAMES` in lock step; the first state
character equal to `'1'` selects its name; otherwise `*btn_active` keeps the
NUL it was set to before the loop. -/
def scan_buttons : List Char → List Char → Char
  | b :: bs, n :: ns => if b = '1' then n else scan_buttons bs ns
  | _, _ => nulChar

/-- Embedding of `int get_active_button(rainbow_hat_dev *dev, char *btn_active,
char err_buff[])` from `rainbow_hat.c`.  `btn_active0` is the caller's
previous `*btn_active` (only visible when `dev` is null, because the function
overwrites it with NUL right after the null check).  `readRet` is the value
returned by `read(dev->buttons_fd, btn_state, 3)` and `btn_state` the 3-byte
buffer content after that call (prefilled `'0','0','0'`).  Result: C return
value, `*btn_active`, error-buffer content. -/
def get_active_button (dev : Option rainbow_hat_dev) (btn_active0 : Char)
    (readRet : Int) (btn_state : List Char) (err_buff : List Char) :
    Int × Char × List Char :=
  match dev with
  | none => (-1, btn_active0, write_error "Button-Device: Device Error (Null-Pointer)!".toList)
  | some d =>
      if 0 ≤ d.buttons_fd then
        if readRet < 0 then (-1, nulChar, write_error (btn_err_msg readRet))
        else (0, scan_buttons btn_state BUTTON_NAMES, err_buff)
      else (-1, nulChar, err_buff)

/-- The device state `free_rainbow_hat` leaves behind in the handle structure
before `free()`: every file descriptor is closed and overwritten with `-1`
(`rainbowHatDev->leds_fd = -1;` and so on for the other two). -/
def freed_dev : rainbow_hat_dev := ⟨-1, -1, -1⟩

/-- Beat target duration of `metronome_led_sequence` in `user_space_app.c`:
`const int beat_duration_us = (int)(60.0 / bpm * 1000000);`.  Modelled as the
integer quotient `60000000 / bpm`: the C expression evaluates `60.0 / bpm *
1000000` in double precision and truncates toward zero, and for every tempo
whose exact value `60000000 / bpm` is not within the accumulated double
rounding error (below `10^-3` µs) of an integer — in particular for
`bpm = 90`, where the exact value is `666666.6…` — the truncation result is
exactly this quotient. -/
def beat_duration_us (bpm : Nat) : Nat := 60000000 / bpm

/-- Remaining sleep computed by the drift correction in
`metronome_led_sequence`: `long adjusted_sleep_duration_us = beat_duration_us
- operation_time_us;`. -/
def adjusted_sleep_duration_us (bpm : Nat) (operation_time_us : Int) : Int :=
  (beat_duration_us bpm : Int) - operation_time_us

/-- Duration actually slept by `metronome_led_sequence` after drift
correction: `if (adjusted_sleep_duration_us > 0) usleep(adjusted_sleep_duration_us);`
— zero when the adjusted value is not positive. -/
def metronome_sleep_us (bpm : Nat) (operation_time_us : Int) : Int :=
  if 0 < adjusted_sleep_duration_us bpm operation_time_us then
    adjusted_sleep_duration_us bpm operation_time_us
  else 0

/-- Size in bytes of the C `unsigned long` on the target platform (the
Raspberry Pi Zero runs a 32-bit ARM kernel, where `unsigned long` is 4
bytes); `rainbow_buzzer_write` rejects writes of any other byte count. -/
def sizeof_unsigned_long : Nat := 4

/-- Embedding of `static ssize_t rainbow_buzzer_write(struct file *file,
const char __user *buf, size_t count, loff_t *ppos)` from the complete
kernel-module listing in the repository documentation (`setup.rst`).
Control flow of the source, in order: `count != sizeof(freq)` returns
`-EINVAL` (22) before the mutex is touched; `!mutex_trylock(&gpio_dev->lock)`
returns `-EBUSY` (16) immediately; a failed `copy_from_user` unlocks and
returns `-EFAULT` (14); `freq == 0` calls `pwm_disable` and sets
`ret = count`; otherwise `period = 1000000000UL / freq`, and `period >
INT_MAX` unlocks and returns `-ERANGE` (34); a non-zero `pwm_config` result
unlocks and returns it, while success calls `pwm_enable` and sets
`ret = count`; finally `mutex_unlock` and `return ret`.  Oracles: `copyOk`
is the success of `copy_from_user`, `pwmRet` the return value of
`pwm_config`.  `locked` is the mutex `gpio_dev->lock` (`true` = held by
another writer); the result is the C return value paired with the mutex
state after the call.  The function is total: no branch waits on the
mutex. -/
def rainbow_buzzer_write (locked : Bool) (copyOk : Bool) (freq : Nat)
    (count : Nat) (pwmRet : Int) : Int × Bool :=
  if count ≠ sizeof_unsigned_long then (-22, locked)
  else if locked then (-16, locked)
  else if copyOk = false then (-14, false)
  else if freq = 0 then ((count : Int), false)
  else if 2147483647 < 1000000000 / freq then (-34, false)
  else if pwmRet = 0 then ((count : Int), false)
  else (pwmRet, false)

/-- PWM effect of one `rainbow_buzzer_write` call. -/
inductive PwmAction where
  | disabled
  | configured (duty : Nat) (period : Nat)
  deriving DecidableEq

/-- Embedding of the frequency branch of `rainbow_buzzer_write`, taken from
the code excerpt in the repository documentation: `if (freq == 0) {
pwm_disable(...); ret = count; } else { period = 1000000000UL / freq;
pwm_config(..., (int)(period / 2), (int)period); pwm_enable(...); }`. -/
def buzzer_freq_action (freq : Nat) : PwmAction :=
  if freq = 0 then .disabled
  else
    let period := 1000000000 / freq
    .configured (period / 2) period

/-! Helper lemmas shared by the claim theorems. -/

/-- Printing a single-digit nonnegative `int` with `%d` yields one character. -/
lemma pinChars_len_one (p : Int) (h0 : 0 ≤ p) (h9 : p ≤ 9) :
    (pinChars p).length = 1 := by
  interval_cases p <;> decide

/-- The argument check of `create_led_array`: element counts outside `[1, 7]`
are rejected with `-1`. -/
lemma create_led_array_invalid_counts (pins : List Int) (colors : List (List Char))
    (h : MAX_AMOUNT_PINS < pins.length ∨ MAX_AMOUNT_PINS < colors.length ∨
      pins.length = 0 ∨ colors.length = 0) :
    create_led_array pins colors = .error (-1) := by
  simp only [create_led_array, if_pos h]

/-- Two color arrays that select the same color at every loop index drive the
`create_led_array` loop identically. -/
lemma craGo_congr (cs cs2 : List (List Char)) (n : Nat)
    (h : ∀ idx, pick_color cs n idx = pick_color cs2 n idx) :
    ∀ (rest : List Int) (idx : Nat) (acc : List Char),
      craGo cs n rest idx acc = craGo cs2 n rest idx acc := by
  intro rest
  induction rest with
  | nil => intro idx acc; rfl
  | cons pin rest ih =>
      intro idx acc
      simp only [craGo, h idx]
      split
      · rfl
      · exact ih (idx + 1) _

/-- When the color count is neither 1 nor the LED count, every loop index
selects `hex_color[0]`. -/
lemma pick_color_of_mismatch (cs : List (List Char)) (n idx : Nat)
    (h1 : cs.length ≠ 1) (h2 : cs.length ≠ n) :
    pick_color cs n idx = cs.getD 0 [] := by
  simp [pick_color, h1, h2]

/-- On a replicated color array whose length equals the LED count, every loop
index selects the replicated color. -/
lemma pick_color_replicate (c : List Char) (n idx : Nat) (hn : 0 < n) :
    pick_color (List.replicate n c) n idx = c := by
  unfold pick_color
  rw [List.length_replicate, if_pos (Or.inr rfl),
    List.getD_eq_getElem?_getD, List.getElem?_replicate, if_pos (by omega)]
  rfl

/-- The loop of `create_led_array` cannot overflow the 70-byte buffer when
every selected color has at most 6 characters, every remaining pin is a
single decimal digit, and enough room is left for 9 bytes per remaining
entry. -/
lemma craGo_ok_of_bounds (cs : List (List Char)) (n : Nat)
    (hpick : ∀ idx, (pick_color cs n idx).length ≤ 6) :
    ∀ (rest : List Int) (idx : Nat) (acc : List Char),
      (∀ p ∈ rest, 0 ≤ p ∧ p ≤ 9) →
      acc.length + 9 * rest.length ≤ 69 →
      ∃ s, craGo cs n rest idx acc = .ok s := by
  intro rest
  induction rest with
  | nil => intro idx acc _ _; exact ⟨acc, rfl⟩
  | cons pin rest ih =>
      intro idx acc hp hb
      have hpin := hp pin (List.mem_cons_self pin rest)
      have hlen : (led_entry idx pin (pick_color cs n idx)).length ≤ 9 := by
        have h1 : (pinChars pin).length = 1 := pinChars_len_one pin hpin.1 hpin.2
        have hc := hpick idx
        have hA : (if 0 < idx then [','] else ([] : List Char)).length ≤ 1 := by
          split <;> simp
        simp only [led_entry, List.length_take, List.length_append, h1,
          List.length_cons, List.length_nil]
        omega
      rw [craGo]
      rw [if_neg (by
        simp only [LED_ARRAY_SIZE]
        simp only [List.length_cons] at hb
        omega)]
      apply ih (idx + 1) _ (fun p hmem => hp p (List.mem_cons_of_mem pin hmem))
      simp only [List.length_append]
      simp only [List.length_cons] at hb
      omega

/-! Claim theorems. -/

/-- C1 counterexample: `create_led_array` silently accepts pin index 7 (one
past the maximum valid index 6) — the command `pins = {7}`,
`hex_color = {"FF0000"}` succeeds and encodes `"7:FF0000"` instead of
failing with an out-of-range or invalid-argument error. -/
theorem C1_counterexample :
    create_led_array [7] ["FF0000".toList] = .ok "7:FF0000".toList ∧
    create_led_array [7] ["FF0000".toList] ≠ .error (-1) ∧
    create_led_array [7] ["FF0000".toList] ≠ .error (-2) := by
  have he : create_led_array [7] ["FF0000".toList] = .ok "7:FF0000".toList := rfl
  exact ⟨he, fun h => Except.noConfusion (he.symm.trans h),
    fun h => Except.noConfusion (he.symm.trans h)⟩

/-- C1 (amended): `create_led_array` validates only the element counts —
`amount_leds` and `amount_colors` must lie in `[1, 7]`, otherwise the call
fails with `-1`; the pin values themselves are never range-checked, so a
command containing pin index 7 is accepted and encoded unchanged. -/
theorem C1_amended :
    (∀ (pins : List Int) (colors : List (List Char)),
        7 < pins.length ∨ 7 < colors.length ∨ pins.length = 0 ∨ colors.length = 0 →
        create_led_array pins colors = .error (-1)) ∧
    create_led_array [7] ["FF0000".toList] = .ok "7:FF0000".toList := by
  constructor
  · intro pins colors h
    exact create_led_array_invalid_counts pins colors (by simpa [MAX_AMOUNT_PINS] using h)
  · rfl

/-- C1 witness: eight pins exceed the count limit and are rejected with `-1`. -/
theorem C1_amended_witness :
    create_led_array [0, 1, 2, 3, 4, 5, 6, 0] [COL_BLACK] = .error (-1) :=
  C1_amended.1 [0, 1, 2, 3, 4, 5, 6, 0] [COL_BLACK] (by decide)

/-- C2: a failed write to the tone endpoint is reported as success.  With an
open buzzer descriptor (`buzzer_fd = 5`) and the underlying `write` failing
with `-EINVAL` (`-22`), `play_tone` returns `0` (success) and leaves the
error buffer untouched: `bytes_written = write(...) < 0;` stores the result
of the comparison (0 or 1), never the negative error code, so the error
branch and the `-1` return — promised by the function's own documentation
block — are unreachable. -/
theorem C2_failed_write_reports_success :
    play_tone (some ⟨3, 4, 5⟩) 440 (-22) [] = (0, []) := rfl

/-- C3 counterexample: `create_led_array` accepts color tokens that are not
6 hexadecimal digits — the non-hex token `"GGGGGG"` and the 5-character
token `"12345"` are both encoded without any invalid-format error. -/
theorem C3_counterexample :
    create_led_array [0] ["GGGGGG".toList] = .ok "0:GGGGGG".toList ∧
    create_led_array [0] ["12345".toList] = .ok "0:12345".toList :=
  ⟨rfl, rfl⟩

/-- C3 (amended): `create_led_array` performs no validation of color tokens;
any character sequence (up to the 19-character entry buffer) is accepted and
copied verbatim into the encoded command — there is no invalid-format
check in the encoder. -/
theorem C3_amended (color : List Char) (h : color.length ≤ 17) :
    create_led_array [0] [color] = .ok ('0' :: ':' :: color) := by
  have hpick : pick_color [color] 1 0 = color := by
    simp [pick_color]
  have hentry : led_entry 0 0 color = '0' :: ':' :: color := by
    have hp : pinChars 0 = ['0'] := rfl
    simp only [led_entry, hp, lt_irrefl, if_false, List.nil_append,
      List.cons_append, List.singleton_append]
    exact List.take_of_length_le (by simp; omega)
  simp only [create_led_array, List.length_singleton]
  rw [if_neg (by simp [MAX_AMOUNT_PINS])]
  rw [craGo, hpick, hentry]
  rw [if_neg (by
    simp only [LED_ARRAY_SIZE, List.length_nil, List.length_cons]
    omega)]
  rw [craGo]
  rfl

/-- C3 witness: the malformed token `"GGGGGG"` is accepted verbatim. -/
theorem C3_amended_witness :
    ("GGGGGG".toList).length ≤ 17 ∧
    create_led_array [0] ["GGGGGG".toList] = .ok "0:GGGGGG".toList :=
  ⟨by decide, C3_amended "GGGGGG".toList (by decide)⟩

/-- C4: on a successful 3-character read from the button endpoint,
`get_active_button` scans the positions of buttons A, B, C in that fixed
order and stores the name of the first position holding `'1'`, or the NUL
sentinel when none does; in particular all three pressed yields `'A'`. -/
theorem C4_button_priority (d : rainbow_hat_dev) (c0 c1 c2 : Char)
    (b0 : Char) (readRet : Int) (err : List Char)
    (hfd : 0 ≤ d.buttons_fd) (hr : 0 ≤ readRet) :
    get_active_button (some d) b0 readRet [c0, c1, c2] err =
      (0, (if c0 = '1' then 'A' else if c1 = '1' then 'B'
            else if c2 = '1' then 'C' else nulChar), err) := by
  simp only [get_active_button, if_pos hfd, if_neg (not_lt.mpr hr)]
  simp [scan_buttons, BUTTON_NAMES]

/-- C4 witness: with all three buttons pressed the recognized button is A. -/
theorem C4_button_priority_witness :
    get_active_button (some ⟨3, 4, 5⟩) nulChar 3 ['1', '1', '1'] [] =
      (0, 'A', []) := by
  have h := C4_button_priority ⟨3, 4, 5⟩ '1' '1' '1' nulChar 3 []
    (by decide) (by decide)
  simpa using h

/-- C5 counterexample: the remaining sleep computed by
`metronome_led_sequence` for 90 BPM and a measured operation cost of
5,000 µs is 661,666 µs, not the 661,667 µs the claim states — the beat
target `(int)(60.0 / 90 * 1000000)` truncates to 666,666 µs. -/
theorem C5_counterexample :
    metronome_sleep_us 90 5000 = 661666 ∧
    metronome_sleep_us 90 5000 ≠ 661667 := by
  constructor <;> decide

/-- C5 (amended): the beat target for bpm = 90 truncates to 666,666 µs, so
the remaining sleep after a 5,000 µs measured cost is 661,666 µs; whenever
the measured cost reaches or exceeds the beat target the loop sleeps 0, and
the slept duration is never negative. -/
theorem C5_amended :
    metronome_sleep_us 90 5000 = 661666 ∧
    (∀ (bpm : Nat) (cost : Int),
        (beat_duration_us bpm : Int) ≤ cost → metronome_sleep_us bpm cost = 0) ∧
    (∀ (bpm : Nat) (cost : Int), 0 ≤ metronome_sleep_us bpm cost) := by
  refine ⟨by decide, ?_, ?_⟩
  · intro bpm cost h
    simp only [metronome_sleep_us, adjusted_sleep_duration_us]
    rw [if_neg (by omega)]
  · intro bpm cost
    simp only [metronome_sleep_us, adjusted_sleep_duration_us]
    split <;> omega

/-- C5 witness: a 700,000 µs operation cost exceeds the 666,666 µs beat at
90 BPM, so the loop sleeps 0. -/
theorem C5_amended_witness : metronome_sleep_us 90 700000 = 0 :=
  C5_amended.2.1 90 700000 (by decide)

/-- C6: `led_light_off` is, by definition, `led_light_on` with every one of
the 7 pins (`PIN_NUMBERS`) and the single black color, and the command it
encodes is the constant all-pins all-black text — identical to the text of a
`led_light_on` call mapping each of the 7 pins to black individually, and
identical across any two successive calls (the encoder `memset`s the module
buffer first, so its output depends only on its arguments). -/
theorem C6_clear_leds :
    (∀ (d : rainbow_hat_dev) (w : Int) (err : List Char),
        led_light_off (some d) w err =
          led_light_on (some d) ⟨[COL_BLACK], PIN_NUMBERS⟩ w err) ∧
    create_led_array PIN_NUMBERS [COL_BLACK] =
      .ok "0:000000,1:000000,2:000000,3:000000,4:000000,5:000000,6:000000".toList ∧
    create_led_array PIN_NUMBERS (List.replicate MAX_AMOUNT_PINS COL_BLACK) =
      .ok "0:000000,1:000000,2:000000,3:000000,4:000000,5:000000,6:000000".toList :=
  ⟨fun _ _ _ => rfl, rfl, rfl⟩

/-- C7: exclusivity of the tone endpoint.  Of two overlapping
`rainbow_buzzer_write` calls of correct size, the one that reaches the free
mutex succeeds for every frequency (returning `count`, with the mutex
released again); the one whose trylock runs while the mutex is held
receives `-EBUSY` immediately with no waiting (the call returns at once,
the mutex untouched); and every call entering on a free mutex leaves the
mutex released when it returns, on the success path and on every failure
path (`-EINVAL` size check, failed copy, `-ERANGE`, failed `pwm_config`)
alike. -/
theorem C7_tone_exclusivity :
    (∀ freq : Nat,
        rainbow_buzzer_write false true freq sizeof_unsigned_long 0 =
          ((sizeof_unsigned_long : Int), false)) ∧
    (∀ (copyOk : Bool) (freq count : Nat) (pwmRet : Int),
        count = sizeof_unsigned_long →
        rainbow_buzzer_write true copyOk freq count pwmRet = (-16, true)) ∧
    (∀ (copyOk : Bool) (freq count : Nat) (pwmRet : Int),
        (rainbow_buzzer_write false copyOk freq count pwmRet).2 = false) := by
  refine ⟨?_, ?_, ?_⟩
  · intro freq
    by_cases h : freq = 0
    · subst h; rfl
    · have hp : 1000000000 / freq ≤ 1000000000 := Nat.div_le_self _ _
      simp only [rainbow_buzzer_write]
      rw [if_neg (by simp), if_neg (by simp), if_neg (by simp), if_neg h,
        if_neg (by omega), if_pos trivial]
  · intro copyOk freq count pwmRet hcount
    subst hcount
    simp only [rainbow_buzzer_write]
    rw [if_neg (by simp), if_pos trivial]
  · intro copyOk freq count pwmRet
    simp only [rainbow_buzzer_write]
    split_ifs <;> rfl

/-- C7 witness: a correctly sized write arriving while the mutex is held
gets `-EBUSY` back with the mutex untouched. -/
theorem C7_tone_exclusivity_witness :
    rainbow_buzzer_write true true 440 4 0 = (-16, true) :=
  C7_tone_exclusivity.2.1 true 440 4 0 rfl

/-- C8: frequency 0 takes the `pwm_disable` branch of `rainbow_buzzer_write`
and never computes a PWM period (the division is guarded by the
`freq == 0` check); every positive frequency computes the period
`1000000000 / freq` nanoseconds and configures the PWM with it. -/
theorem C8_tone_zero_guard :
    buzzer_freq_action 0 = .disabled ∧
    ∀ freq : Nat, 0 < freq →
      buzzer_freq_action freq =
        .configured (1000000000 / freq / 2) (1000000000 / freq) := by
  refine ⟨rfl, fun freq h => ?_⟩
  simp [buzzer_freq_action, Nat.pos_iff_ne_zero.mp h]

/-- C8 witness: 440 Hz configures the PWM with period 2,272,727 ns. -/
theorem C8_tone_zero_guard_witness :
    buzzer_freq_action 440 = .configured 1136363 2272727 := by
  have h := C8_tone_zero_guard.2 440 (by decide)
  simpa using h

/-- C9 counterexample: after `free_rainbow_hat` has overwritten the file
descriptors with `-1`, the operations do fail (return `-1`), but none of
them writes any diagnostic — the error buffer passed in empty comes back
empty, so a caller cannot distinguish the closed-handle failure from any
other silent failure; there is no `Closed` error.  (In the actual C the
handle memory has moreover been `free`d, so these calls are undefined
behavior; the model shows the struct content the library itself left
behind.) -/
theorem C9_counterexample :
    set_leds freed_dev.leds_fd 8 [] = (-1, []) ∧
    led_light_off (some freed_dev) 8 [] = (-1, []) ∧
    play_tone (some freed_dev) 440 8 [] = (-1, []) ∧
    get_active_button (some freed_dev) 'A' 3 ['1', '1', '1'] [] =
      (-1, nulChar, []) :=
  ⟨rfl, rfl, rfl, rfl⟩

/-- C9 (amended): every operation on the handle state that
`free_rainbow_hat` leaves behind (all descriptors `-1`) fails with `-1`,
but silently: the error buffer is returned unchanged, with no
distinguishable `Closed` diagnostic — and the C call itself is a
use-after-free. -/
theorem C9_amended :
    (∀ (w : Int) (err : List Char), set_leds freed_dev.leds_fd w err = (-1, err)) ∧
    (∀ (w : Int) (err : List Char), led_light_off (some freed_dev) w err = (-1, err)) ∧
    (∀ (freq : Nat) (w : Int) (err : List Char),
        play_tone (some freed_dev) freq w err = (-1, err)) ∧
    (∀ (b : Char) (r : Int) (s : List Char) (err : List Char),
        get_active_button (some freed_dev) b r s err = (-1, nulChar, err)) :=
  ⟨fun _ _ => rfl, fun _ _ => rfl, fun _ _ _ => rfl, fun _ _ _ _ => rfl⟩

/-- C10 counterexample: with mismatched counts that both lie in `[1, 7]`
(7 pins, 2 colors) the encoding can still fail — an 18-character first
color overflows the 70-byte `LED_ARRAY` buffer, `create_led_array` returns
`-2`, and `led_light_on` reports `-1` with the invalid-argument message,
contradicting the claim that encoding never fails in this situation. -/
theorem C10_counterexample :
    create_led_array [0, 0, 0, 0, 0, 0, 0]
        ["0123456789ABCDEF01".toList, COL_BLACK] = .error (-2) ∧
    led_light_on (some ⟨3, 4, 5⟩)
        ⟨["0123456789ABCDEF01".toList, COL_BLACK], [0, 0, 0, 0, 0, 0, 0]⟩ 8 [] =
      (-1, write_error "LED-LIGHT-ON: Invalid argument!".toList) :=
  ⟨rfl, rfl⟩

/-- C10 (amended): when `amount_colors` is neither 1 nor equal to
`amount_pins` but both counts lie in `[1, 7]`, and the encoded text fits the
70-byte LED buffer (as it always does for single-digit pins and color
tokens of at most 6 characters), encoding does not fail: the first color
`hex_color[0]` is silently applied to every listed pin (the result is the
same as replicating `hex_color[0]` over all pins); while `amount_pins` or
`amount_colors` outside `[1, 7]` makes `led_light_on` fail with `-1` and an
invalid-argument message. -/
theorem C10_amended :
    (∀ (pins : List Int) (colors : List (List Char)),
        0 < pins.length → pins.length ≤ 7 →
        0 < colors.length → colors.length ≤ 7 →
        colors.length ≠ 1 → colors.length ≠ pins.length →
        (∀ p ∈ pins, 0 ≤ p ∧ p ≤ 9) → (colors.getD 0 []).length ≤ 6 →
        create_led_array pins colors =
            create_led_array pins
              (List.replicate pins.length (colors.getD 0 [])) ∧
          ∃ s, create_led_array pins colors = .ok s) ∧
    (∀ (d : rainbow_hat_dev) (a : led_arg) (w : Int) (err : List Char),
        7 < a.pins.length ∨ 7 < a.colors.length ∨
          a.pins.length = 0 ∨ a.colors.length = 0 →
        led_light_on (some d) a w err =
          (-1, write_error "LED-LIGHT-ON: Invalid argument!".toList)) := by
  constructor
  · intro pins colors hp0 hp7 hc0 hc7 hne1 hnen hpins hc6
    have hpickL : ∀ idx, pick_color colors pins.length idx = colors.getD 0 [] :=
      fun idx => pick_color_of_mismatch colors pins.length idx hne1 hnen
    have hpickR : ∀ idx,
        pick_color (List.replicate pins.length (colors.getD 0 []))
          pins.length idx = colors.getD 0 [] :=
      fun idx => pick_color_replicate (colors.getD 0 []) pins.length idx hp0
    have hcondL : ¬ (MAX_AMOUNT_PINS < pins.length ∨ MAX_AMOUNT_PINS < colors.length ∨
        pins.length = 0 ∨ colors.length = 0) := by
      simp only [MAX_AMOUNT_PINS]
      omega
    have hcondR : ¬ (MAX_AMOUNT_PINS < pins.length ∨
        MAX_AMOUNT_PINS < (List.replicate pins.length (colors.getD 0 [])).length ∨
        pins.length = 0 ∨ (List.replicate pins.length (colors.getD 0 [])).length = 0) := by
      simp only [MAX_AMOUNT_PINS, List.length_replicate]
      omega
    constructor
    · simp only [create_led_array]
      rw [if_neg hcondL, if_neg hcondR]
      exact craGo_congr colors _ pins.length
        (fun idx => (hpickL idx).trans (hpickR idx).symm) pins 0 []
    · obtain ⟨s, hs⟩ := craGo_ok_of_bounds colors pins.length
        (fun idx => by rw [hpickL idx]; exact hc6) pins 0 [] hpins
        (by simp only [List.length_nil]; omega)
      refine ⟨s, ?_⟩
      simp only [create_led_array]
      rw [if_neg hcondL]
      exact hs
  · intro d a w err h
    have henc : create_led_array a.pins a.colors = .error (-1) :=
      create_led_array_invalid_counts a.pins a.colors
        (by simpa [MAX_AMOUNT_PINS] using h)
    simp [led_light_on, henc]

/-- C10 witness: three pins with two colors (mismatched, in range) encode
successfully with the first color on every pin; one pin with zero colors is
rejected by `led_light_on` with the invalid-argument diagnostic. -/
theorem C10_amended_witness :
    create_led_array [0, 1, 2] ["FF0000".toList, "00FF00".toList] =
        .ok "0:FF0000,1:FF0000,2:FF0000".toList ∧
    led_light_on (some ⟨3, 4, 5⟩) ⟨[], [0]⟩ 8 [] =
      (-1, write_error "LED-LIGHT-ON: Invalid argument!".toList) := by
  constructor
  · have h := (C10_amended.1 [0, 1, 2] ["FF0000".toList, "00FF00".toList]
      (by decide) (by decide) (by decide) (by decide) (by decide) (by decide)
      (by decide) (by decide)).1
    rw [h]
    rfl
  · exact C10_amended.2 ⟨3, 4, 5⟩ ⟨[], [0]⟩ 8 [] (by decide)

end RainbowHat
